import Mathlib

/-!
Shallow embedding of `sample_apps/aws_starter_demo/src/main.c` (AWS starter
demo): the field tracker held in the global pushbutton/led counters, the
delta encoder `aws_publish_property_state`, the remote-delta applier
`led_indicator_cb`, the wlan connection-lifecycle callbacks, and the
synchronization loop body of `aws_starter_demo`.

Machine integers are modelled as `Nat` reduced mod `2^32` where the C code
can overflow (`uint32_t` counters); C strings are Lean `String`s, with the
`char *` arithmetic of the encoder (`if (*ptr == ',') ptr++`) modelled on
the underlying character list.
-/

namespace AwsStarter

/-- 2^32: modulus of the `uint32_t` counters. -/
def UINT32_MOD : Nat := 4294967296

/-- `WM_SUCCESS` return code. -/
def WM_SUCCESS : Int := 0

/-- `enum state { AWS_CONNECTED = 1, AWS_RECONNECTED, AWS_DISCONNECTED }`. -/
def AWS_CONNECTED : Nat := 1

def AWS_RECONNECTED : Nat := 2

def AWS_DISCONNECTED : Nat := 3

/-- The file-scope mutable globals of `main.c` that the synchronization
logic reads and writes: the two pushbutton counters with their
last-reported (`_prev`) values, the led state with its last-reported
value, the physical led output (driven by `led_on`/`led_off`), and
`device_state` (a `Nat`, since its initial C value `0` lies outside the
`enum state` range `1..3`). -/
structure Globals where
  pushbutton_a_count : Nat
  pushbutton_a_count_prev : Nat
  pushbutton_b_count : Nat
  pushbutton_b_count_prev : Nat
  led_1_state : Nat
  led_1_state_prev : Nat
  led_1_on : Bool
  device_state : Nat
deriving DecidableEq

/-- Static initialization of the globals: counters `0`, the `_prev`
values `(uint32_t)-1 = 4294967295`, led off, `device_state = 0`. -/
def initGlobals : Globals :=
  { pushbutton_a_count := 0
    pushbutton_a_count_prev := UINT32_MOD - 1
    pushbutton_b_count := 0
    pushbutton_b_count_prev := UINT32_MOD - 1
    led_1_state := 0
    led_1_state_prev := UINT32_MOD - 1
    led_1_on := false
    device_state := 0 }

/-- `pushbutton_a_cb`: the press callback increments the counter only when
`pushbutton_a_count_prev == pushbutton_a_count`. -/
def pushbutton_a_cb (g : Globals) : Globals :=
  if g.pushbutton_a_count_prev = g.pushbutton_a_count then
    { g with pushbutton_a_count := (g.pushbutton_a_count + 1) % UINT32_MOD }
  else g

/-- `pushbutton_b_cb`: same guard for button B. -/
def pushbutton_b_cb (g : Globals) : Globals :=
  if g.pushbutton_b_count_prev = g.pushbutton_b_count then
    { g with pushbutton_b_count := (g.pushbutton_b_count + 1) % UINT32_MOD }
  else g

/-- `led_indicator_cb`: the remote-delta callback. `ctx` is the parsed
requested led value the shadow library stored behind `p_context->pData`
(`none` models the `p_context == NULL` early exit). A non-zero request
turns the led on and records `led_1_state = 1`; zero turns it off and
records `0`. -/
def led_indicator_cb (ctx : Option Int) (g : Globals) : Globals :=
  match ctx with
  | none => g
  | some state =>
      if state ≠ 0 then { g with led_1_on := true, led_1_state := 1 }
      else { g with led_1_on := false, led_1_state := 0 }

/-- `Shadow_Ack_Status_t` values seen by `shadow_update_status_cb`. -/
inductive Shadow_Ack_Status where
  | timeout
  | rejected
  | accepted
deriving DecidableEq

/-- `shadow_update_status_cb` only prints a line per ack status; it touches
none of the tracked state. -/
def shadow_update_status_cb (status : Shadow_Ack_Status) (g : Globals) : Globals := g

/-- The encoder's `if (*ptr == ',') ptr++` on the state buffer. -/
def skipLeadingComma (s : String) : String :=
  match s.data with
  | c :: rest => if c = ',' then String.mk rest else s
  | [] => s

/-- `aws_publish_property_state`: builds the `state` buffer by appending
`,"<name>":<value>` for every field whose current value differs from its
`_prev` value (order: `pb`, `pb_lambda`, `led`), setting `_prev` to the
current value for each included field; skips the leading comma; and when
the buffer is non-empty wraps it as the shadow-update payload. Returns the
updated globals and the payload handed to `aws_iot_shadow_update`
(`none` when nothing changed and no publish is attempted). -/
def aws_publish_property_state (g : Globals) : Globals × Option String :=
  let state :=
    (if g.pushbutton_a_count_prev ≠ g.pushbutton_a_count then
      ",\"pb\":" ++ toString g.pushbutton_a_count else "")
    ++ (if g.pushbutton_b_count_prev ≠ g.pushbutton_b_count then
      ",\"pb_lambda\":" ++ toString g.pushbutton_b_count else "")
    ++ (if g.led_1_state_prev ≠ g.led_1_state then
      ",\"led\":" ++ toString g.led_1_state else "")
  let g2 : Globals :=
    { g with
      pushbutton_a_count_prev :=
        if g.pushbutton_a_count_prev ≠ g.pushbutton_a_count then
          g.pushbutton_a_count else g.pushbutton_a_count_prev
      pushbutton_b_count_prev :=
        if g.pushbutton_b_count_prev ≠ g.pushbutton_b_count then
          g.pushbutton_b_count else g.pushbutton_b_count_prev
      led_1_state_prev :=
        if g.led_1_state_prev ≠ g.led_1_state then
          g.led_1_state else g.led_1_state_prev }
  let payload :=
    if state.length ≠ 0 then
      some ("\x7b\"state\": \x7b\"reported\":\x7b" ++ skipLeadingComma state
            ++ "\x7d\x7d\x7d")
    else none
  (g2, payload)

/-- Return value of `aws_publish_property_state`: `ret` stays `WM_SUCCESS`
when no publish is attempted, otherwise it is whatever
`aws_iot_shadow_update` returned (a parameter of the model). -/
def aws_publish_property_state_ret (updateRet : Int) (g : Globals) : Int :=
  match (aws_publish_property_state g).2 with
  | none => WM_SUCCESS
  | some _ => updateRet

/-- `aws_iot_shadow_yield`: pumps one round of inbound notifications; each
inbound remote delta value invokes the registered `led_indicator_cb`. -/
def aws_iot_shadow_yield (inbound : List Int) (g : Globals) : Globals :=
  inbound.foldl (fun acc v => led_indicator_cb (some v) acc) g

/-- Outcome of one iteration of the `while (1)` loop in
`aws_starter_demo`: either the loop continues with updated globals, or a
reconnect failure hits `goto out` and the loop terminates. -/
inductive TickOutcome where
  | ok (g : Globals)
  | fatal (g : Globals)
deriving DecidableEq

/-- One iteration of the `while (1)` body of `aws_starter_demo`.
`initRet` and `connectRet` are the results of `aws_iot_shadow_init` and
`aws_iot_shadow_connect` should a reconnect be attempted; `inbound` is the
list of remote delta values delivered by this tick's
`aws_iot_shadow_yield`. If `device_state == AWS_RECONNECTED`, the loop
re-initializes and re-connects the shadow channel — failure of either is
`goto out` (fatal) — and on success sets `device_state = AWS_CONNECTED`
and re-registers the delta callback. Then it yields and publishes. -/
def sync_loop_tick (initRet connectRet : Int) (inbound : List Int)
    (g : Globals) : TickOutcome :=
  if g.device_state = AWS_RECONNECTED then
    if initRet ≠ WM_SUCCESS then TickOutcome.fatal g
    else if connectRet ≠ WM_SUCCESS then TickOutcome.fatal g
    else
      let g1 := { g with device_state := AWS_CONNECTED }
      let g2 := aws_iot_shadow_yield inbound g1
      TickOutcome.ok (aws_publish_property_state g2).1
  else
    let g2 := aws_iot_shadow_yield inbound g
    TickOutcome.ok (aws_publish_property_state g2).1

/-- `wlan_event_normal_link_lost`: disconnects the shadow channel and sets
`device_state = AWS_DISCONNECTED`, whatever the current state. -/
def wlan_event_normal_link_lost (g : Globals) : Globals :=
  { g with device_state := AWS_DISCONNECTED }

/-- `wlan_event_normal_connect_failed`: same state change as link loss. -/
def wlan_event_normal_connect_failed (g : Globals) : Globals :=
  { g with device_state := AWS_DISCONNECTED }

/-- System state for the lifecycle model: the globals plus a count of the
cloud tasks successfully created by `os_thread_create`. -/
structure SysState where
  g : Globals
  tasks_created : Nat
deriving DecidableEq

/-- `wlan_event_normal_connected`: when `device_state` is still `0` (never
connected), creates the cloud task (`createOk` is the `os_thread_create`
result; on failure the callback returns early, changing nothing) and then
sets `device_state = AWS_CONNECTED`; otherwise, if
`device_state == AWS_DISCONNECTED`, moves it to `AWS_RECONNECTED`; in all
other states it changes nothing. -/
def wlan_event_normal_connected (createOk : Bool) (s : SysState) : SysState :=
  if s.g.device_state = 0 then
    if createOk then
      { g := { s.g with device_state := AWS_CONNECTED }
        tasks_created := s.tasks_created + 1 }
    else s
  else if s.g.device_state = AWS_DISCONNECTED then
    { s with g := { s.g with device_state := AWS_RECONNECTED } }
  else s

/-- The events that mutate `device_state` in `main.c`: the three wlan
callbacks and one iteration of the synchronization loop. -/
inductive Event where
  | linkLost
  | connectFailed
  | linkConnected (createOk : Bool)
  | loopTick (initRet connectRet : Int) (inbound : List Int)
deriving DecidableEq

/-- Dispatch one event to the corresponding code path. A fatal loop tick
leaves the globals as the loop left them (the loop task ends). -/
def step (e : Event) (s : SysState) : SysState :=
  match e with
  | Event.linkLost => { s with g := wlan_event_normal_link_lost s.g }
  | Event.connectFailed => { s with g := wlan_event_normal_connect_failed s.g }
  | Event.linkConnected createOk => wlan_event_normal_connected createOk s
  | Event.loopTick initRet connectRet inbound =>
      match sync_loop_tick initRet connectRet inbound s.g with
      | TickOutcome.ok g2 => { s with g := g2 }
      | TickOutcome.fatal g2 => { s with g := g2 }

/-- Initial system state: statically initialized globals, no task yet. -/
def initSys : SysState := { g := initGlobals, tasks_created := 0 }

/-- Run a sequence of events from the initial state. -/
def runEvents (es : List Event) : SysState :=
  es.foldl (fun s e => step e s) initSys

/-- Specification-level view of the pending update: the list of
`"<name>":<value>` entries for the fields whose current value differs from
the last reported one, in the fixed enumeration order pb, pb_lambda, led. -/
def pendingEntries (g : Globals) : List String :=
  (if g.pushbutton_a_count_prev ≠ g.pushbutton_a_count then
    ["\"pb\":" ++ toString g.pushbutton_a_count] else [])
  ++ (if g.pushbutton_b_count_prev ≠ g.pushbutton_b_count then
    ["\"pb_lambda\":" ++ toString g.pushbutton_b_count] else [])
  ++ (if g.led_1_state_prev ≠ g.led_1_state then
    ["\"led\":" ++ toString g.led_1_state] else [])

/-- Comma-join of a list of entries. -/
def joinComma : List String → String
  | [] => ""
  | [e] => e
  | e :: rest => e ++ "," ++ joinComma rest

/-- Specification-level encoder: nothing when no field changed, otherwise
the document `{"state": {"reported":{<entries comma-joined>}}}`. -/
def encode_spec (g : Globals) : Option String :=
  if pendingEntries g = [] then none
  else
    some ("\x7b\"state\": \x7b\"reported\":\x7b" ++ joinComma (pendingEntries g)
          ++ "\x7d\x7d\x7d")

/-! ### String helper lemmas -/

theorem str_data_eq (a b : String) (h : a.data = b.data) : a = b := by
  cases a; cases b; exact congrArg String.mk h

theorem data_append (a b : String) : (a ++ b).data = a.data ++ b.data := by
  cases a; cases b; rfl

theorem sappend_assoc (a b c : String) : a ++ b ++ c = a ++ (b ++ c) := by
  apply str_data_eq
  simp [data_append]

theorem sappend_empty (a : String) : a ++ "" = a := by
  apply str_data_eq
  simp [data_append]

theorem sempty_append (a : String) : "" ++ a = a := by
  apply str_data_eq
  simp [data_append]

theorem comma_append_data (s : String) : ("," ++ s).data = ',' :: s.data := by
  cases s; rfl

theorem skip_comma_append (s : String) : skipLeadingComma ("," ++ s) = s := by
  cases s with
  | mk l =>
    show skipLeadingComma (String.mk (',' :: l)) = String.mk l
    simp [skipLeadingComma]

theorem comma_append_length (s : String) : ("," ++ s).length ≠ 0 := by
  show ("," ++ s).data.length ≠ 0
  rw [comma_append_data]
  simp

theorem frag_pb (c : Nat) :
    ",\"pb\":" ++ toString c = "," ++ ("\"pb\":" ++ toString c) := by
  apply str_data_eq
  simp [data_append]

theorem frag_pbl (c : Nat) :
    ",\"pb_lambda\":" ++ toString c = "," ++ ("\"pb_lambda\":" ++ toString c) := by
  apply str_data_eq
  simp [data_append]

theorem frag_led (c : Nat) :
    ",\"led\":" ++ toString c = "," ++ ("\"led\":" ++ toString c) := by
  apply str_data_eq
  simp [data_append]

/-! ### Projection lemmas for the encoder -/

theorem publish_a_count (g : Globals) :
    (aws_publish_property_state g).1.pushbutton_a_count = g.pushbutton_a_count := rfl

theorem publish_b_count (g : Globals) :
    (aws_publish_property_state g).1.pushbutton_b_count = g.pushbutton_b_count := rfl

theorem publish_led_state (g : Globals) :
    (aws_publish_property_state g).1.led_1_state = g.led_1_state := rfl

theorem publish_led_on (g : Globals) :
    (aws_publish_property_state g).1.led_1_on = g.led_1_on := rfl

theorem publish_device_state (g : Globals) :
    (aws_publish_property_state g).1.device_state = g.device_state := rfl

theorem cb_device_state (ctx : Option Int) (g : Globals) :
    (led_indicator_cb ctx g).device_state = g.device_state := by
  cases ctx with
  | none => rfl
  | some v => by_cases hv : v = 0 <;> simp [led_indicator_cb, hv]

theorem yield_device_state (inbound : List Int) :
    ∀ g : Globals, (aws_iot_shadow_yield inbound g).device_state = g.device_state := by
  induction inbound with
  | nil => intro g; rfl
  | cons v rest ih =>
      intro g
      have hstep : aws_iot_shadow_yield (v :: rest) g =
          aws_iot_shadow_yield rest (led_indicator_cb (some v) g) := rfl
      rw [hstep, ih, cb_device_state]

/-- After the encoder runs, every field's last-reported value equals its
current value (included fields are marked at construction time; the others
were already equal). -/
theorem publish_marks_reported (g : Globals) :
    (aws_publish_property_state g).1.pushbutton_a_count_prev =
      (aws_publish_property_state g).1.pushbutton_a_count ∧
    (aws_publish_property_state g).1.pushbutton_b_count_prev =
      (aws_publish_property_state g).1.pushbutton_b_count ∧
    (aws_publish_property_state g).1.led_1_state_prev =
      (aws_publish_property_state g).1.led_1_state := by
  refine ⟨?_, ?_, ?_⟩ <;>
  · by_cases h1 : g.pushbutton_a_count_prev = g.pushbutton_a_count <;>
    by_cases h2 : g.pushbutton_b_count_prev = g.pushbutton_b_count <;>
    by_cases h3 : g.led_1_state_prev = g.led_1_state <;>
    simp [aws_publish_property_state, h1, h2, h3]

/-- A fully synchronized tracker is left untouched by the encoder. -/
theorem publish_fst_synced (g : Globals)
    (h1 : g.pushbutton_a_count_prev = g.pushbutton_a_count)
    (h2 : g.pushbutton_b_count_prev = g.pushbutton_b_count)
    (h3 : g.led_1_state_prev = g.led_1_state) :
    (aws_publish_property_state g).1 = g := by
  cases g
  simp_all [aws_publish_property_state]

/-- Record update equality used for the idempotence arguments. -/
theorem led_update_eq (x : Globals) (b : Bool) (n : Nat)
    (hon : x.led_1_on = b) (hst : x.led_1_state = n) :
    ({ x with led_1_on := b, led_1_state := n } : Globals) = x := by
  cases x
  cases hon
  cases hst
  rfl

/-- The payload built by `aws_publish_property_state` coincides with the
specification-level encoder on every tracker state. -/
theorem publish_eq_encode_spec (g : Globals) :
    (aws_publish_property_state g).2 = encode_spec g := by
  by_cases h1 : g.pushbutton_a_count_prev = g.pushbutton_a_count <;>
  by_cases h2 : g.pushbutton_b_count_prev = g.pushbutton_b_count <;>
  by_cases h3 : g.led_1_state_prev = g.led_1_state <;>
  simp only [aws_publish_property_state, encode_spec, pendingEntries, h1, h2, h3,
    if_pos, if_neg, ne_eq, not_true_eq_false, not_false_eq_true, ite_true,
    ite_false, frag_pb, frag_pbl, frag_led, sappend_empty, sempty_append,
    sappend_assoc, List.append_nil, List.nil_append, List.cons_append] <;>
  simp only [skip_comma_append, comma_append_length, ne_eq, not_false_eq_true,
    ite_true, joinComma, sappend_assoc, List.cons_ne_nil, ite_false,
    not_true_eq_false, String.length, List.length_nil, not_false_eq_true] <;>
  rfl

/-- A fully synchronized tracker produces no payload. -/
theorem publish_snd_none (g : Globals)
    (h1 : g.pushbutton_a_count_prev = g.pushbutton_a_count)
    (h2 : g.pushbutton_b_count_prev = g.pushbutton_b_count)
    (h3 : g.led_1_state_prev = g.led_1_state) :
    (aws_publish_property_state g).2 = none := by
  rw [publish_eq_encode_spec]
  simp [encode_spec, pendingEntries, h1, h2, h3]

/-! ### Concrete states used in counterexamples and witnesses -/

/-- Tracker with a pending pb = 3 and led = 1 change, pb_lambda in sync. -/
def examplePbLed : Globals :=
  { pushbutton_a_count := 3
    pushbutton_a_count_prev := 0
    pushbutton_b_count := 7
    pushbutton_b_count_prev := 7
    led_1_state := 1
    led_1_state_prev := 0
    led_1_on := true
    device_state := AWS_CONNECTED }

/-- Fully synchronized tracker (every field reported). -/
def exampleSynced : Globals :=
  { pushbutton_a_count := 5
    pushbutton_a_count_prev := 5
    pushbutton_b_count := 2
    pushbutton_b_count_prev := 2
    led_1_state := 1
    led_1_state_prev := 1
    led_1_on := true
    device_state := AWS_CONNECTED }

/-- Synchronized tracker on a device whose link just dropped. -/
def exampleDisconnectedSynced : Globals :=
  { pushbutton_a_count := 0
    pushbutton_a_count_prev := 0
    pushbutton_b_count := 0
    pushbutton_b_count_prev := 0
    led_1_state := 0
    led_1_state_prev := 0
    led_1_on := false
    device_state := AWS_DISCONNECTED }

/-- Disconnected system state with the cloud task already created. -/
def sampleDis : SysState :=
  { g := { exampleSynced with device_state := AWS_DISCONNECTED }
    tasks_created := 1 }

/-! ### Claims -/

/-- C1, counterexample: the claim says a pushbutton press records the new
value unconditionally, overwriting any prior unsynchronized change. In
the initial state `pushbutton_a_count_prev` (4294967295) differs from the
counter (0), and a button-A press changes nothing at all: the callback's
guard `if (pushbutton_a_count_prev == pushbutton_a_count)` drops the
press instead of recording it. -/
theorem C1_record_unconditional_counterexample :
    initGlobals.pushbutton_a_count_prev ≠ initGlobals.pushbutton_a_count ∧
    pushbutton_a_cb initGlobals = initGlobals := by
  decide

/-- C1, amended: a pushbutton press callback records the increment only
when the field is synchronized (`_prev` equals the counter); a press that
arrives while an unreported change is pending leaves the counter
unchanged (dropped, not queued). Only the actuator record performed by
`led_indicator_cb` overwrites unconditionally. -/
theorem C1_record_conditional (g : Globals) :
    (pushbutton_a_cb g).pushbutton_a_count =
      (if g.pushbutton_a_count_prev = g.pushbutton_a_count then
        (g.pushbutton_a_count + 1) % UINT32_MOD else g.pushbutton_a_count) ∧
    (pushbutton_b_cb g).pushbutton_b_count =
      (if g.pushbutton_b_count_prev = g.pushbutton_b_count then
        (g.pushbutton_b_count + 1) % UINT32_MOD else g.pushbutton_b_count) ∧
    (∀ v : Int, (led_indicator_cb (some v) g).led_1_state =
      (if v = 0 then 0 else 1)) := by
  refine ⟨?_, ?_, ?_⟩
  · by_cases h : g.pushbutton_a_count_prev = g.pushbutton_a_count <;>
      simp [pushbutton_a_cb, h]
  · by_cases h : g.pushbutton_b_count_prev = g.pushbutton_b_count <;>
      simp [pushbutton_b_cb, h]
  · intro v
    by_cases hv : v = 0 <;> simp [led_indicator_cb, hv]

/-- C2, counterexample: starting from a synchronized tracker on a
disconnected device, pressing button A three times increments the counter
only once (the callback guard drops the second and third press), so the
next tick publishes "pb":1 — not the claimed "pb":3 — and the press after
that publish leads to "pb":2, not "pb":4. -/
theorem C2_three_presses_counterexample :
    (pushbutton_a_cb (pushbutton_a_cb (pushbutton_a_cb
        exampleDisconnectedSynced))).pushbutton_a_count = 1 ∧
    (pushbutton_a_cb (pushbutton_a_cb (pushbutton_a_cb
        exampleDisconnectedSynced))).pushbutton_a_count ≠ 3 ∧
    (aws_publish_property_state (pushbutton_a_cb (pushbutton_a_cb
        (pushbutton_a_cb exampleDisconnectedSynced)))).2 =
      some "\x7b\"state\": \x7b\"reported\":\x7b\"pb\":1\x7d\x7d\x7d" ∧
    some "\x7b\"state\": \x7b\"reported\":\x7b\"pb\":1\x7d\x7d\x7d" ≠
      some "\x7b\"state\": \x7b\"reported\":\x7b\"pb\":3\x7d\x7d\x7d" := by
  decide

/-- C2, amended: of three presses on a disconnected, synchronized device
only the first is counted — the guard in `pushbutton_a_cb` drops presses
arriving while a change is unreported — so the next tick publishes
"pb":1 exactly once; once that publish marks the field reported, the next
press is counted again and the following tick publishes "pb":2. Values
that do reach the counter are never dropped, but presses arriving between
a change and its publish are. -/
theorem C2_three_presses_amended :
    (aws_publish_property_state (pushbutton_a_cb (pushbutton_a_cb
        (pushbutton_a_cb exampleDisconnectedSynced)))).2 =
      some "\x7b\"state\": \x7b\"reported\":\x7b\"pb\":1\x7d\x7d\x7d" ∧
    (aws_publish_property_state (pushbutton_a_cb
      (aws_publish_property_state (pushbutton_a_cb (pushbutton_a_cb
        (pushbutton_a_cb exampleDisconnectedSynced)))).1)).2 =
      some "\x7b\"state\": \x7b\"reported\":\x7b\"pb\":2\x7d\x7d\x7d" := by
  decide

/-- C3, counterexample: the claim says the applier records exactly the
requested value v. For the well-formed request v = 2 the code drives the
led on but records the normalized value 1, and the echoed publish carries
"led":1, not "led":2. -/
theorem C3_echo_counterexample :
    (led_indicator_cb (some 2) exampleDisconnectedSynced).led_1_on = true ∧
    (led_indicator_cb (some 2) exampleDisconnectedSynced).led_1_state = 1 ∧
    (led_indicator_cb (some 2) exampleDisconnectedSynced).led_1_state ≠ 2 ∧
    (aws_publish_property_state
        (led_indicator_cb (some 2) exampleDisconnectedSynced)).2 =
      some "\x7b\"state\": \x7b\"reported\":\x7b\"led\":1\x7d\x7d\x7d" := by
  decide

/-- C3, amended: a well-formed remote request v drives the actuator (on
iff v is non-zero) and records the normalized value — 1 for non-zero v, 0
for zero — rather than v itself, so the echoed value equals the request
only when v is 0 or 1. -/
theorem C3_apply_normalizes (v : Int) (g : Globals) :
    (led_indicator_cb (some v) g).led_1_on = (if v = 0 then false else true) ∧
    (led_indicator_cb (some v) g).led_1_state = (if v = 0 then 0 else 1) := by
  by_cases hv : v = 0 <;> simp [led_indicator_cb, hv]

/-- C5: the encoder agrees with the specification-level encoder on every
tracker state — nothing when no field changed, otherwise exactly the
document `{"state": {"reported":{...}}}` listing exactly the changed
fields in the fixed order pb, pb_lambda, led, comma-separated and
rendered as unsigned decimal integers — and on the pending update
{"pb": 3, "led": 1} it yields exactly those two entries, pb before led. -/
theorem C5_encode_shape :
    (∀ g : Globals, (aws_publish_property_state g).2 = encode_spec g) ∧
    pendingEntries examplePbLed = ["\"pb\":3", "\"led\":1"] ∧
    (aws_publish_property_state examplePbLed).2 =
      some "\x7b\"state\": \x7b\"reported\":\x7b\"pb\":3,\"led\":1\x7d\x7d\x7d" := by
  refine ⟨publish_eq_encode_spec, by decide, by decide⟩

/-- C4: a link-lost event always leaves `device_state = AWS_DISCONNECTED`
— so it is a no-op in the disconnected state and from the connected state
it yields disconnected, never reconnecting — and the reconnecting state
is entered only by a link-connected event fired while disconnected. -/
theorem C4_lifecycle_safety :
    (∀ s : SysState,
      (step Event.linkLost s).g.device_state = AWS_DISCONNECTED) ∧
    (∀ s : SysState, s.g.device_state = AWS_DISCONNECTED →
      step Event.linkLost s = s) ∧
    (∀ (e : Event) (s : SysState),
      (step e s).g.device_state = AWS_RECONNECTED →
      s.g.device_state = AWS_RECONNECTED ∨
      ((∃ createOk, e = Event.linkConnected createOk) ∧
        s.g.device_state = AWS_DISCONNECTED)) := by
  refine ⟨fun s => rfl, ?_, ?_⟩
  · intro s h
    obtain ⟨g, t⟩ := s
    obtain ⟨c1, p1, c2, p2, l1, lp, lo, ds⟩ := g
    subst h
    rfl
  · intro e s h
    cases e with
    | linkLost =>
        simp [step, wlan_event_normal_link_lost, AWS_DISCONNECTED,
          AWS_RECONNECTED] at h
    | connectFailed =>
        simp [step, wlan_event_normal_connect_failed, AWS_DISCONNECTED,
          AWS_RECONNECTED] at h
    | linkConnected createOk =>
        by_cases hz : s.g.device_state = 0
        · cases createOk with
          | true =>
              simp [step, wlan_event_normal_connected, hz, AWS_CONNECTED,
                AWS_RECONNECTED] at h
          | false =>
              simp [step, wlan_event_normal_connected, hz, AWS_RECONNECTED] at h
        · by_cases hd : s.g.device_state = AWS_DISCONNECTED
          · exact Or.inr ⟨⟨createOk, rfl⟩, hd⟩
          · left
            simpa [step, wlan_event_normal_connected, hz, hd] using h
    | loopTick ir cr inb =>
        by_cases hr : s.g.device_state = AWS_RECONNECTED
        · exact Or.inl hr
        · left
          have hpres : (step (Event.loopTick ir cr inb) s).g.device_state =
              s.g.device_state := by
            simp [step, sync_loop_tick, hr, publish_device_state,
              yield_device_state]
          rw [hpres] at h
          exact h

/-- C4 witness: at the concrete disconnected state, a link-lost event is
a no-op, and the link-connected event that moves it to reconnecting
satisfies the entry characterization. -/
theorem C4_lifecycle_safety_witness :
    step Event.linkLost sampleDis = sampleDis ∧
    (sampleDis.g.device_state = AWS_RECONNECTED ∨
      ((∃ createOk, Event.linkConnected true = Event.linkConnected createOk) ∧
        sampleDis.g.device_state = AWS_DISCONNECTED)) :=
  ⟨C4_lifecycle_safety.2.1 sampleDis (by decide),
   C4_lifecycle_safety.2.2 (Event.linkConnected true) sampleDis (by decide)⟩

/-- C6: when every field's current value equals its last-reported value
the encoder builds no payload, leaves the tracker untouched, and the
publish step returns `WM_SUCCESS` whatever `aws_iot_shadow_update` would
have returned (it is never called). -/
theorem C6_empty_pending (g : Globals)
    (h1 : g.pushbutton_a_count_prev = g.pushbutton_a_count)
    (h2 : g.pushbutton_b_count_prev = g.pushbutton_b_count)
    (h3 : g.led_1_state_prev = g.led_1_state) :
    (aws_publish_property_state g).2 = none ∧
    (aws_publish_property_state g).1 = g ∧
    (∀ updateRet : Int, aws_publish_property_state_ret updateRet g = WM_SUCCESS) := by
  refine ⟨publish_snd_none g h1 h2 h3, publish_fst_synced g h1 h2 h3, ?_⟩
  intro updateRet
  simp [aws_publish_property_state_ret, publish_snd_none g h1 h2 h3]

/-- C6 witness at the concrete synchronized tracker. -/
theorem C6_empty_pending_witness :
    (aws_publish_property_state exampleSynced).2 = none ∧
    (aws_publish_property_state exampleSynced).1 = exampleSynced ∧
    (∀ updateRet : Int,
      aws_publish_property_state_ret updateRet exampleSynced = WM_SUCCESS) :=
  C6_empty_pending exampleSynced rfl rfl rfl

/-- C7: the encoder sets each field's last-reported value to the current
value at payload-construction time; the acknowledgment callback never
touches the tracker, so the result is the same whether the publish is
later accepted, rejected, or times out; and re-running the encoder on the
resulting state builds no payload — an identical unchanged value is not
re-sent on the next tick. -/
theorem C7_mark_at_construction (g : Globals) :
    (aws_publish_property_state g).1.pushbutton_a_count_prev =
      (aws_publish_property_state g).1.pushbutton_a_count ∧
    (aws_publish_property_state g).1.pushbutton_b_count_prev =
      (aws_publish_property_state g).1.pushbutton_b_count ∧
    (aws_publish_property_state g).1.led_1_state_prev =
      (aws_publish_property_state g).1.led_1_state ∧
    (∀ status : Shadow_Ack_Status,
      shadow_update_status_cb status (aws_publish_property_state g).1 =
        (aws_publish_property_state g).1) ∧
    (aws_publish_property_state (aws_publish_property_state g).1).2 = none := by
  obtain ⟨ha, hb, hl⟩ := publish_marks_reported g
  exact ⟨ha, hb, hl, fun status => rfl, publish_snd_none _ ha hb hl⟩

/-- C8: on a tick that starts in `AWS_RECONNECTED`, the loop attempts the
shadow re-init and re-connect; if both succeed the tick continues with
`device_state = AWS_CONNECTED`, and if either fails the tick is fatal —
the synchronization loop terminates with the state unchanged. -/
theorem C8_reconnect_tick (initRet connectRet : Int) (inbound : List Int)
    (g : Globals) (h : g.device_state = AWS_RECONNECTED) :
    (initRet = WM_SUCCESS ∧ connectRet = WM_SUCCESS →
      ∃ g2, sync_loop_tick initRet connectRet inbound g = TickOutcome.ok g2 ∧
        g2.device_state = AWS_CONNECTED) ∧
    (initRet ≠ WM_SUCCESS ∨ connectRet ≠ WM_SUCCESS →
      sync_loop_tick initRet connectRet inbound g = TickOutcome.fatal g) := by
  constructor
  · rintro ⟨hi, hc⟩
    refine ⟨(aws_publish_property_state (aws_iot_shadow_yield inbound
      { g with device_state := AWS_CONNECTED })).1, ?_, ?_⟩
    · simp [sync_loop_tick, h, hi, hc]
    · rw [publish_device_state, yield_device_state]
  · intro hf
    rcases hf with hf | hf <;> simp [sync_loop_tick, h, hf]

/-- C8 witness: concrete reconnecting tick, successful and failed. -/
theorem C8_reconnect_tick_witness :
    (∃ g2, sync_loop_tick WM_SUCCESS WM_SUCCESS []
        { exampleSynced with device_state := AWS_RECONNECTED } =
          TickOutcome.ok g2 ∧ g2.device_state = AWS_CONNECTED) ∧
    sync_loop_tick 1 WM_SUCCESS []
        { exampleSynced with device_state := AWS_RECONNECTED } =
      TickOutcome.fatal { exampleSynced with device_state := AWS_RECONNECTED } :=
  ⟨(C8_reconnect_tick WM_SUCCESS WM_SUCCESS []
      { exampleSynced with device_state := AWS_RECONNECTED } rfl).1 ⟨rfl, rfl⟩,
   (C8_reconnect_tick 1 WM_SUCCESS []
      { exampleSynced with device_state := AWS_RECONNECTED } rfl).2
      (Or.inl (by decide))⟩

/-- C9: applying the same remote request twice yields the same actuator
and tracker state as applying it once, and after the first application
has been published (marking the field reported) the second application
changes nothing at all — in particular it leaves no new delta for the
actuator field. -/
theorem C9_apply_idempotent (req : Option Int) (g : Globals) :
    led_indicator_cb req (led_indicator_cb req g) = led_indicator_cb req g ∧
    led_indicator_cb req
        (aws_publish_property_state (led_indicator_cb req g)).1 =
      (aws_publish_property_state (led_indicator_cb req g)).1 := by
  cases req with
  | none => exact ⟨rfl, rfl⟩
  | some v =>
      by_cases hv : v = 0
      · constructor
        · simp [led_indicator_cb, hv]
        · have h1 : led_indicator_cb (some v)
              (aws_publish_property_state (led_indicator_cb (some v) g)).1 =
              { (aws_publish_property_state (led_indicator_cb (some v) g)).1 with
                led_1_on := false, led_1_state := 0 } := by
            simp [led_indicator_cb, hv]
          rw [h1]
          apply led_update_eq
          · rw [publish_led_on]; simp [led_indicator_cb, hv]
          · rw [publish_led_state]; simp [led_indicator_cb, hv]
      · constructor
        · simp [led_indicator_cb, hv]
        · have h1 : led_indicator_cb (some v)
              (aws_publish_property_state (led_indicator_cb (some v) g)).1 =
              { (aws_publish_property_state (led_indicator_cb (some v) g)).1 with
                led_1_on := true, led_1_state := 1 } := by
            simp [led_indicator_cb, hv]
          rw [h1]
          apply led_update_eq
          · rw [publish_led_on]; simp [led_indicator_cb, hv]
          · rw [publish_led_state]; simp [led_indicator_cb, hv]

/-! ### Task-creation invariant -/

/-- The invariant behind single task creation: while `device_state` is
still its never-connected initial value `0` no task exists, and at most
one task is ever created. -/
def TasksInv (s : SysState) : Prop :=
  (s.g.device_state = 0 → s.tasks_created = 0) ∧ s.tasks_created ≤ 1

theorem step_tasks_unchanged_tick (ir cr : Int) (inb : List Int) (s : SysState) :
    (step (Event.loopTick ir cr inb) s).tasks_created = s.tasks_created := by
  cases hout : sync_loop_tick ir cr inb s.g <;> simp [step, hout]

theorem step_ds_tick (ir cr : Int) (inb : List Int) (s : SysState) :
    (step (Event.loopTick ir cr inb) s).g.device_state = AWS_CONNECTED ∨
    (step (Event.loopTick ir cr inb) s).g.device_state = s.g.device_state := by
  by_cases hr : s.g.device_state = AWS_RECONNECTED
  · by_cases hi : ir = WM_SUCCESS
    · by_cases hc : cr = WM_SUCCESS
      · left
        simp [step, sync_loop_tick, hr, hi, hc, publish_device_state,
          yield_device_state]
      · right
        simp [step, sync_loop_tick, hr, hi, hc]
    · right
      simp [step, sync_loop_tick, hr, hi]
  · right
    simp [step, sync_loop_tick, hr, publish_device_state, yield_device_state]

theorem step_preserves_inv (e : Event) (s : SysState) (h : TasksInv s) :
    TasksInv (step e s) := by
  obtain ⟨h0, h1⟩ := h
  cases e with
  | linkLost =>
      refine ⟨?_, h1⟩
      intro hz
      simp [step, wlan_event_normal_link_lost, AWS_DISCONNECTED] at hz
  | connectFailed =>
      refine ⟨?_, h1⟩
      intro hz
      simp [step, wlan_event_normal_connect_failed, AWS_DISCONNECTED] at hz
  | linkConnected createOk =>
      by_cases hz : s.g.device_state = 0
      · cases createOk with
        | true =>
            constructor
            · intro hcontra
              simp [step, wlan_event_normal_connected, hz,
                AWS_CONNECTED] at hcontra
            · simp [step, wlan_event_normal_connected, hz, h0 hz]
        | false =>
            have hid : step (Event.linkConnected false) s = s := by
              simp [step, wlan_event_normal_connected, hz]
            rw [hid]
            exact ⟨h0, h1⟩
      · by_cases hd : s.g.device_state = AWS_DISCONNECTED
        · constructor
          · intro hcontra
            simp [step, wlan_event_normal_connected, hz, hd, AWS_DISCONNECTED,
              AWS_RECONNECTED] at hcontra
          · simpa [step, wlan_event_normal_connected, hz, hd,
              AWS_DISCONNECTED] using h1
        · have hid : step (Event.linkConnected createOk) s = s := by
            simp [step, wlan_event_normal_connected, hz, hd]
          rw [hid]
          exact ⟨h0, h1⟩
  | loopTick ir cr inb =>
      constructor
      · intro hz
        rw [step_tasks_unchanged_tick]
        rcases step_ds_tick ir cr inb s with hc | hc
        · rw [hz] at hc
          simp [AWS_CONNECTED] at hc
        · rw [hz] at hc
          exact h0 hc.symm
      · rw [step_tasks_unchanged_tick]
        exact h1

theorem foldl_preserves_inv (es : List Event) :
    ∀ s : SysState, TasksInv s →
      TasksInv (es.foldl (fun s e => step e s) s) := by
  induction es with
  | nil => intro s h; exact h
  | cons e rest ih => intro s h; exact ih _ (step_preserves_inv e s h)

/-- C10: `device_state` starts at `0`, a value outside the
`AWS_CONNECTED`/`AWS_RECONNECTED`/`AWS_DISCONNECTED` enum; along every
event sequence at most one cloud task is ever created; a link-connected
event in the initial state creates the task and sets connected (and on
`os_thread_create` failure changes nothing), and once `device_state` is
non-zero, a link-connected event never creates a task and at most moves
disconnected to reconnecting. -/
theorem C10_single_task :
    (initSys.g.device_state = 0 ∧
      initSys.g.device_state ≠ AWS_CONNECTED ∧
      initSys.g.device_state ≠ AWS_RECONNECTED ∧
      initSys.g.device_state ≠ AWS_DISCONNECTED) ∧
    (∀ es : List Event, (runEvents es).tasks_created ≤ 1) ∧
    (∀ s : SysState, s.g.device_state = 0 →
      step (Event.linkConnected true) s =
        { g := { s.g with device_state := AWS_CONNECTED }
          tasks_created := s.tasks_created + 1 } ∧
      step (Event.linkConnected false) s = s) ∧
    (∀ (createOk : Bool) (s : SysState), s.g.device_state ≠ 0 →
      (step (Event.linkConnected createOk) s).tasks_created =
        s.tasks_created ∧
      (step (Event.linkConnected createOk) s).g.device_state =
        (if s.g.device_state = AWS_DISCONNECTED then AWS_RECONNECTED
         else s.g.device_state)) := by
  refine ⟨by decide, ?_, ?_, ?_⟩
  · intro es
    exact (foldl_preserves_inv es initSys ⟨fun _ => rfl, by decide⟩).2
  · intro s hz
    constructor
    · simp [step, wlan_event_normal_connected, hz]
    · simp [step, wlan_event_normal_connected, hz]
  · intro createOk s hz
    by_cases hd : s.g.device_state = AWS_DISCONNECTED
    · constructor
      · simp [step, wlan_event_normal_connected, hz, hd, AWS_DISCONNECTED]
      · simp [step, wlan_event_normal_connected, hz, hd, AWS_DISCONNECTED]
    · constructor
      · simp [step, wlan_event_normal_connected, hz, hd]
      · simp [step, wlan_event_normal_connected, hz, hd]

/-- C10 witness: the first link-connected event creates the task and sets
connected; at the concrete disconnected state with the task present, a
further link-connected event creates no task and moves to reconnecting. -/
theorem C10_single_task_witness :
    (step (Event.linkConnected true) initSys =
        { g := { initSys.g with device_state := AWS_CONNECTED }
          tasks_created := initSys.tasks_created + 1 } ∧
      step (Event.linkConnected false) initSys = initSys) ∧
    ((step (Event.linkConnected true) sampleDis).tasks_created =
        sampleDis.tasks_created ∧
      (step (Event.linkConnected true) sampleDis).g.device_state =
        (if sampleDis.g.device_state = AWS_DISCONNECTED then AWS_RECONNECTED
         else sampleDis.g.device_state)) :=
  ⟨C10_single_task.2.2.1 initSys rfl,
   C10_single_task.2.2.2 true sampleDis (by decide)⟩

end AwsStarter
